import Mathlib

/-!
Verification development for the jellysentia analysis core.

The definitions below are a shallow embedding of the Python sources:
  - `analysis-core/models/algorithms/processors.py` (`FeatureProcessor`)
  - `analysis-core/models/client/client.py` (`SimilarityIndex`)
  - `analysis-core/models/server/server.py` (`AnalysisService`)

Numbers are modelled as rationals (`ℚ`); the only irrational step, the
final L2 normalization of a feature vector, is modelled over `ℝ`.
Python exceptions are modelled by an explicit error type, and each
operation on mutable state is modelled as a function from the prior
state to the posterior state; the embedding places every error exit at
the exact point of the source's raise, before any state field that the
source has not yet assigned.
-/

namespace Jellysentia

/-- Python exception classes that the embedded code can raise.
`assertionError` is raised by the FAISS Python wrappers (`add`/`search`
assert on the vector dimension), the others by the interpreter itself. -/
inductive PyError where
  | valueError
  | assertionError
  | indexError
  | typeError
  | runtimeError
deriving DecidableEq, Repr

/-- A Python value as it can appear in a descriptor dictionary.
`bool` is kept separate although Python's `bool` is a subclass of `int`
(so `isinstance(value, (int, float))` accepts it); `other` stands for any
value that is neither numeric nor a string (lists, None, ...). -/
inductive PyVal where
  | bool (b : Bool)
  | int (n : ℤ)
  | float (q : ℚ)
  | str (s : List Char)
  | other
deriving DecidableEq, Repr

instance {ε α : Type _} [DecidableEq ε] [DecidableEq α] :
    DecidableEq (Except ε α)
  | .error a, .error b =>
    if h : a = b then .isTrue (by rw [h])
    else .isFalse (fun hh => h (by cases hh; rfl))
  | .error _, .ok _ => .isFalse (fun hh => Except.noConfusion hh)
  | .ok _, .error _ => .isFalse (fun hh => Except.noConfusion hh)
  | .ok a, .ok b =>
    if h : a = b then .isTrue (by rw [h])
    else .isFalse (fun hh => h (by cases hh; rfl))

/-- A DescriptorSet: a Python dict from descriptor name to value,
modelled as an association list with the dict's (unique-key) lookup. -/
abbrev DescriptorSet := List (String × PyVal)

/-- `FeatureProcessor.feature_order` (processors.py lines 18-23). -/
def feature_order : List String :=
  ["tempo", "energy", "danceability", "valence", "acousticness",
   "instrumentalness", "speechiness", "loudness", "spectral_centroid",
   "spectral_rolloff", "zero_crossing_rate", "dynamic_complexity",
   "beats_confidence", "onset_rate", "key_strength", "dissonance"]

/-- Value of an ASCII digit string, as `float()` computes it for the
integral part. -/
def natVal (s : List Char) : ℕ :=
  s.foldl (fun acc c => 10 * acc + (c.toNat - 48)) 0

/-- The guard `value.replace('.', '').isdigit()` (processors.py line 45),
for ASCII strings: remove every dot, then require a non-empty all-digit
remainder. (Python's `str.isdigit` also admits some further Unicode digit
characters; the development only evaluates this on ASCII strings, where
the two agree.) -/
def digitGuard (s : List Char) : Bool :=
  let t := s.filter (fun c => c ≠ '.')
  !t.isEmpty && t.all Char.isDigit

/-- CPython `float()` restricted to strings made of ASCII digits and
dots — the only strings the guard `digitGuard` lets through to line 46.
On that domain `float()` succeeds exactly when the string has at most one
dot and at least one digit, and returns integral part plus fractional
part; on two or more dots (e.g. `"1.2.3"`) it raises `ValueError`,
modelled by `none`. -/
def pyFloatOfDigitDotString (s : List Char) : Option ℚ :=
  if 2 ≤ s.count '.' then none
  else if s.count '.' = 0 then
    if s ≠ [] ∧ s.all Char.isDigit then some (natVal s) else none
  else
    let a := s.takeWhile (fun c => c ≠ '.')
    let b := (s.dropWhile (fun c => c ≠ '.')).drop 1
    if (a ++ b).all Char.isDigit ∧ ¬(a = [] ∧ b = []) then
      some ((natVal a : ℚ) + (natVal b : ℚ) / 10 ^ b.length)
    else none

/-- One iteration of the value-collection loop of
`FeatureProcessor.create_feature_vector` (processors.py lines 39-51):
numeric values pass through (`bool` counts as `int`), a string passing
the digit guard goes to `float()` — which can raise — and everything
else defaults to `0.0`. -/
def coerceValue (v : Option PyVal) : Except PyError ℚ :=
  match v with
  | some (.bool b) => .ok (if b then 1 else 0)
  | some (.int n) => .ok (n : ℚ)
  | some (.float q) => .ok q
  | some (.str s) =>
    if digitGuard s then
      match pyFloatOfDigitDotString s with
      | some q => .ok q
      | none => .error .valueError
    else .ok 0
  | some .other => .ok 0
  | none => .ok 0

/-- The value-collection loop of `create_feature_vector` (processors.py
lines 36-51): walk `feature_order`, collecting one rational per feature
name, propagating the first raised exception. -/
def collectValues : List String → DescriptorSet → Except PyError (List ℚ)
  | [], _ => .ok []
  | name :: rest, features =>
    match coerceValue (features.lookup name) with
    | .error e => .error e
    | .ok x =>
      match collectValues rest features with
      | .error e => .error e
      | .ok xs => .ok (x :: xs)

/-- The tempo-specific step of `FeatureProcessor._normalize_vector`
(processors.py lines 67-68): when the vector is non-empty, its first
component becomes `(value - 60) / 140` if positive, else `0`. -/
def tempoStep : List ℚ → List ℚ
  | [] => []
  | t :: rest => (if 0 < t then (t - 60) / 140 else 0) :: rest

/-- `np.clip(x, 0, 1)` per component (processors.py line 71). -/
def clip01 (x : ℚ) : ℚ := min (max x 0) 1

/-- `FeatureProcessor._normalize_vector` (processors.py lines 61-78):
tempo step, clip every component to `[0, 1]`, then divide by the L2 norm
when the norm is positive. -/
noncomputable def normalize_vector (v : List ℚ) : List ℝ :=
  let n1 := (tempoStep v).map clip01
  let nrm := Real.sqrt (((n1.map (fun x => ((x : ℝ)) ^ 2)).sum))
  if 0 < nrm then n1.map (fun x => (x : ℝ) / nrm)
  else n1.map (fun x => (x : ℝ))

/-- `FeatureProcessor.create_feature_vector` (processors.py lines
25-59): collect the 16 values in order (this step can raise, via
`float()` on a guard-passing but unparsable string), then normalize. -/
noncomputable def create_feature_vector (features : DescriptorSet) :
    Except PyError (List ℝ) :=
  (collectValues feature_order features).map normalize_vector

/-! ## SimilarityIndex (client.py) -/

/-- The FAISS `IndexHNSWFlat` structure, abstracted to what the claims
observe: its fixed dimension `d` and its stored vectors in insertion
order (internal ANN ids are the insertion positions `0, 1, ...`). -/
structure FaissIndex where
  d : ℕ
  vecs : List (List ℚ)
deriving DecidableEq, Repr

/-- A 2-D `np.ndarray` of vectors: the rows, plus `shape[1]` — `none`
models a 1-D empty array (`np.array([])` has shape `(0,)`, so it has no
second axis and `shape[1]` raises `IndexError`). -/
structure NpMatrix where
  rows : List (List ℚ)
  cols : Option ℕ
deriving DecidableEq, Repr

/-- `np.array` on a list of vectors: a ragged list raises `ValueError`
("inhomogeneous shape"), an empty list gives a 1-D empty array, and a
uniform list gives a 2-D matrix. -/
def np_array (vs : List (List ℚ)) : Except PyError NpMatrix :=
  match vs with
  | [] => .ok { rows := [], cols := none }
  | r :: rest =>
    if rest.all (fun x => x.length = r.length) then
      .ok { rows := r :: rest, cols := some r.length }
    else .error .valueError

/-- The FAISS Python wrapper for `Index.add`: it runs
`n, d = x.shape` (raising `ValueError` on a 1-D array) and then
`assert d == self.d` (raising `AssertionError` on a dimension mismatch)
before touching the structure, and only then appends the rows in order. -/
def faissAdd (idx : FaissIndex) (m : NpMatrix) : Except PyError FaissIndex :=
  match m.cols with
  | none => .error .valueError
  | some c =>
    if c = idx.d then .ok { d := idx.d, vecs := idx.vecs ++ m.rows }
    else .error .assertionError

/-- The in-memory state of a `SimilarityIndex` instance (client.py lines
20-22): the optional FAISS structure, the ordered id list, and the
optional established dimension. -/
structure SimilarityIndex where
  index : Option FaissIndex
  item_ids : List String
  dimension : Option ℕ
deriving DecidableEq, Repr

/-- The `metadata.pkl` record (client.py lines 110-113). -/
structure IndexMetadata where
  item_ids : List String
  dimension : Option ℕ
deriving DecidableEq, Repr

/-- The two persisted artifacts under the storage root. For each file,
the outer `Option` is presence on disk and the inner `Option` is
deserializability: `some none` models a file that exists but fails to
load back (corrupt bytes, wrong schema, ...). -/
structure IndexStore where
  index_file : Option (Option FaissIndex)
  metadata_file : Option (Option IndexMetadata)
deriving DecidableEq, Repr

/-- `SimilarityIndex._save_index` (client.py lines 101-118): write both
artifacts, overwriting the store. `faiss.write_index(None, path)` would
raise `TypeError`; every call site has `self.index` set. -/
def save_index (s : SimilarityIndex) (store : IndexStore) :
    IndexStore × Option PyError :=
  match s.index with
  | none => (store, some .typeError)
  | some idx =>
    ({ index_file := some (some idx),
       metadata_file := some (some { item_ids := s.item_ids, dimension := s.dimension }) },
     none)

/-- `SimilarityIndex._load_index` as run from `__init__` (client.py
lines 120-140): if either file is missing, the fresh instance's fields
(`None`, `[]`, `None`) are kept; if both exist, any deserialization
failure is caught, leaving `index = None` and the fresh `[]`/`None`
fields (the assignments at lines 134-135 were not reached). -/
def load_index (store : IndexStore) : SimilarityIndex :=
  match store.index_file, store.metadata_file with
  | some fi, some fm =>
    match fi with
    | none => { index := none, item_ids := [], dimension := none }
    | some idx =>
      match fm with
      | none => { index := none, item_ids := [], dimension := none }
      | some md =>
        { index := some idx, item_ids := md.item_ids, dimension := md.dimension }
  | _, _ => { index := none, item_ids := [], dimension := none }

/-- `SimilarityIndex.build` (client.py lines 27-52). The count check at
line 35 raises `ValueError` before any field is assigned; then
`self.dimension = vectors.shape[1]` (which raises `IndexError` on a 1-D
array, still before any assignment), `self.item_ids = item_ids`, a fresh
HNSW structure, `index.add(vectors)` (its dimension always matches here),
and a synchronous save. The triple returned is (posterior state,
posterior store, raised exception if any). -/
def build (s : SimilarityIndex) (store : IndexStore) (m : NpMatrix)
    (ids : List String) : SimilarityIndex × IndexStore × Option PyError :=
  if m.rows.length ≠ ids.length then (s, store, some .valueError)
  else
    match m.cols with
    | none => (s, store, some .indexError)
    | some d =>
      let s1 : SimilarityIndex :=
        { index := some { d := d, vecs := [] }, item_ids := ids, dimension := some d }
      match faissAdd { d := d, vecs := [] } m with
      | .error e => (s1, store, some e)
      | .ok idx1 =>
        let s2 : SimilarityIndex := { s1 with index := some idx1 }
        let saved := save_index s2 store
        (s2, saved.1, saved.2)

/-- `SimilarityIndex.add_items` (client.py lines 87-99): with no index
yet, delegate to `build`; otherwise `self.index.add(vectors)` — whose
wrapper raises before any mutation when the dimension differs — then
extend the id list and save. -/
def add_items (s : SimilarityIndex) (store : IndexStore) (m : NpMatrix)
    (ids : List String) : SimilarityIndex × IndexStore × Option PyError :=
  match s.index with
  | none => build s store m ids
  | some idx =>
    match faissAdd idx m with
    | .error e => (s, store, some e)
    | .ok idx1 =>
      let s1 : SimilarityIndex := { s with index := some idx1, item_ids := s.item_ids ++ ids }
      let saved := save_index s1 store
      (s1, saved.1, saved.2)

/-- Number of vectors stored in the ANN structure (`index.ntotal`),
`0` when there is no structure. -/
def annSize (s : SimilarityIndex) : ℕ :=
  match s.index with
  | none => 0
  | some idx => idx.vecs.length

/-- Squared L2 distance, the metric `IndexHNSWFlat` reports. -/
def sqDist (q v : List ℚ) : ℚ :=
  ((q.zip v).map (fun p => (p.1 - p.2) ^ 2)).sum

/-- Insert into a list sorted by ascending (distance, id). -/
def insertScored (x : ℚ × ℤ) : List (ℚ × ℤ) → List (ℚ × ℤ)
  | [] => [x]
  | y :: ys =>
    if x.1 < y.1 ∨ (x.1 = y.1 ∧ x.2 ≤ y.2) then x :: y :: ys
    else y :: insertScored x ys

/-- Sort scored candidates by ascending (distance, id). -/
def sortScored : List (ℚ × ℤ) → List (ℚ × ℤ)
  | [] => []
  | x :: xs => insertScored x (sortScored xs)

/-- `FLT_MAX`, the distance FAISS reports for a padding slot. -/
def fltMax : ℚ := 2 ^ 128 - 2 ^ 104

/-- Model of `self.index.search(q, k)` on the ANN structure: the `k`
nearest stored vectors by ascending reported distance, each labelled by
its insertion position; when fewer than `k` vectors are stored, the
remaining slots are padded with the not-found sentinel id `-1` and
distance `FLT_MAX`. Returns `(distances[0], indices[0])`. -/
def faissSearch (idx : FaissIndex) (q : List ℚ) (k : ℕ) :
    List ℚ × List ℤ :=
  let scored := (idx.vecs.zip (List.range idx.vecs.length)).map
    (fun p => (sqDist q p.1, (p.2 : ℤ)))
  let top := (sortScored scored).take k
  let padded := top ++ List.replicate (k - top.length) (fltMax, (-1 : ℤ))
  (padded.map Prod.fst, padded.map Prod.snd)

/-- Python list subscription `l[i]` with an integer index: indices in
`[0, len)` read directly, indices in `[-len, 0)` wrap around from the
end, anything else raises `IndexError`. -/
def pyGetStr (l : List String) (i : ℤ) : Except PyError String :=
  if 0 ≤ i ∧ i < (l.length : ℤ) then .ok (l.getD i.toNat "")
  else if -(l.length : ℤ) ≤ i ∧ i < 0 then .ok (l.getD (l.length - i.natAbs) "")
  else .error .indexError

/-- The result-conversion loop of `SimilarityIndex.search` (client.py
lines 76-84): for each candidate slot, test `idx < len(self.item_ids)`
(note: no lower bound), then read the slot's distance, compute
`similarity = 1 / (1 + distance)` and append
`(self.item_ids[idx], distance, similarity)` — the subscript follows
Python semantics, so a negative `idx` that passed the test wraps around.
A slot failing the test is skipped silently. -/
def convertResults (ids : List String) :
    List ℚ → List ℤ → Except PyError (List (String × ℚ × ℚ))
  | _, [] => .ok []
  | [], iv :: ivs =>
    if iv < (ids.length : ℤ) then .error .indexError
    else convertResults ids [] ivs
  | dv :: ds, iv :: ivs =>
    if iv < (ids.length : ℤ) then
      match pyGetStr ids iv with
      | .error e => .error e
      | .ok name =>
        match convertResults ids ds ivs with
        | .error e => .error e
        | .ok rest => .ok ((name, dv, 1 / (1 + dv)) :: rest)
    else convertResults ids ds ivs

/-- `SimilarityIndex.search` (client.py lines 54-85): `RuntimeError`
when no index is built or loaded; the FAISS wrapper asserts the query
dimension matches and `k > 0`; then the ANN search and the conversion
loop. -/
def search (s : SimilarityIndex) (q : List ℚ) (k : ℕ) :
    Except PyError (List (String × ℚ × ℚ)) :=
  match s.index with
  | none => .error .runtimeError
  | some idx =>
    if q.length ≠ idx.d then .error .assertionError
    else if k = 0 then .error .assertionError
    else
      let dr := faissSearch idx q k
      convertResults s.item_ids dr.1 dr.2

/-- Whether a list of vectors is dimensionally uniform (what `np.array`
requires to produce a 2-D matrix). -/
def uniformDims (vs : List (List ℚ)) : Bool :=
  match vs with
  | [] => true
  | r :: rest => rest.all (fun x => x.length = r.length)

/-- Calling `build` on caller-supplied vector lists, as the server does
at server.py line 153: `self.index.build(np.array(vectors), item_ids)` —
the `np.array` conversion happens first and raises on ragged input. -/
def build_from_list (s : SimilarityIndex) (store : IndexStore)
    (vs : List (List ℚ)) (ids : List String) :
    SimilarityIndex × IndexStore × Option PyError :=
  match np_array vs with
  | .error e => (s, store, some e)
  | .ok m => build s store m ids

/-- The spec invariant `len(item_ids) == ANN structure size`, read on an
in-memory state: whenever an ANN structure exists, the id list is
exactly as long as its vector store. -/
def SizeInv (s : SimilarityIndex) : Prop :=
  ∀ idx, s.index = some idx → s.item_ids.length = idx.vecs.length

/-- The same consistency read on the persisted artifacts. -/
def StoreSizeInv (store : IndexStore) : Prop :=
  ∀ idx md, store.index_file = some (some idx) →
    store.metadata_file = some (some md) →
    md.item_ids.length = idx.vecs.length

/-! ## AnalysisService (server.py) -/

/-- The fields of an `AnalysisResponse` that the batch path can observe:
the echoed path and which exception, if any, `AnalyzeTrack` caught. -/
structure AnalysisResponse where
  file_path : String
  error : Option PyError
deriving DecidableEq, Repr

/-- `AnalysisService.AnalyzeTrack` (server.py lines 40-71). The
external extractor `analyzer.analyze_file` is modelled by `env` (spec
§1 treats extraction as a black-box collaborator); the fallible part of
`create_feature_vector` follows. Every exception from the `try` body is
caught at lines 64-71 and turned into an error response, so the function
is total: it never raises to its caller. -/
def AnalyzeTrack (env : String → Except PyError DescriptorSet)
    (path : String) : AnalysisResponse :=
  match env path with
  | .error e => { file_path := path, error := some e }
  | .ok feats =>
    match collectValues feature_order feats with
    | .error e => { file_path := path, error := some e }
    | .ok _ => { file_path := path, error := none }

/-- One streamed `AnalysisProgress` record (server.py lines 96-102). -/
structure AnalysisProgress where
  total : ℕ
  completed : ℕ
  errors : ℕ
  current_file : String
  progress_percent : ℚ
deriving DecidableEq, Repr

/-- The loop body of `AnalysisService.AnalyzeBatch` (server.py lines
79-103), carrying the `completed` and `errors` counters: call
`AnalyzeTrack` (total — it catches its own exceptions, so the
surrounding `except` at lines 91-93 never fires), increment `completed`,
and yield a progress record after each path. -/
def AnalyzeBatchGo (env : String → Except PyError DescriptorSet)
    (total completed errors : ℕ) : List String → List AnalysisProgress
  | [] => []
  | p :: rest =>
    let _resp := AnalyzeTrack env p
    { total := total, completed := completed + 1, errors := errors,
      current_file := p,
      progress_percent := ((completed + 1 : ℚ) / total) * 100 }
      :: AnalyzeBatchGo env total (completed + 1) errors rest

/-- `AnalysisService.AnalyzeBatch` (server.py lines 73-103): the list of
progress records streamed for the given file paths. -/
def AnalyzeBatch (env : String → Except PyError DescriptorSet)
    (paths : List String) : List AnalysisProgress :=
  AnalyzeBatchGo env paths.length 0 0 paths

/-! ## Helper lemmas -/

/-- Characterization of a successful `build`: it succeeds exactly when
the counts match and the vectors form a 2-D matrix, and then the
posterior state holds the new structure, ids and dimension, with both
artifacts rewritten from that state. -/
theorem build_ok (s : SimilarityIndex) (store : IndexStore)
    (m : NpMatrix) (ids : List String) (s2 : SimilarityIndex)
    (store2 : IndexStore)
    (h : build s store m ids = (s2, store2, none)) :
    ∃ d, m.cols = some d ∧ m.rows.length = ids.length ∧
      s2 = ⟨some ⟨d, m.rows⟩, ids, some d⟩ ∧
      store2 = ⟨some (some ⟨d, m.rows⟩), some (some ⟨ids, some d⟩)⟩ := by
  rcases m with ⟨rows, cols⟩
  by_cases hlen : rows.length = ids.length
  · cases cols with
    | none => simp [build, hlen] at h
    | some d =>
      simp [build, faissAdd, save_index, hlen] at h
      exact ⟨d, rfl, hlen, h.1.symm, h.2.symm⟩
  · cases cols <;> simp [build, hlen] at h

/-! ## Claim theorems -/

/-- C1: on an index already built with dimension `idx.d`, `add_items`
with a batch of vectors of a different dimension `c` fails (the ANN
`add` wrapper's dimension assertion — the spec's
`DimensionMismatchError` — fires before any mutation) and both the
in-memory state and the persisted store are returned unchanged: same id
list, same stored vectors, same dimension. -/
theorem add_items_dim_mismatch (s : SimilarityIndex) (store : IndexStore)
    (m : NpMatrix) (ids : List String) (idx : FaissIndex) (c : ℕ)
    (hidx : s.index = some idx) (hc : m.cols = some c) (hne : c ≠ idx.d) :
    add_items s store m ids = (s, store, some PyError.assertionError) := by
  unfold add_items
  rw [hidx]
  unfold faissAdd
  rw [hc]
  simp [hne]

/-- Witness for C1 at a concrete input: a 2-dimensional index holding
one vector, and an `add_items` call with one 3-dimensional vector. -/
theorem add_items_dim_mismatch_witness :
    add_items ⟨some ⟨2, [[0, 0]]⟩, ["a"], some 2⟩ ⟨none, none⟩
      ⟨[[1, 2, 3]], some 3⟩ ["b"]
      = (⟨some ⟨2, [[0, 0]]⟩, ["a"], some 2⟩, ⟨none, none⟩,
         some PyError.assertionError) :=
  add_items_dim_mismatch _ _ _ _ ⟨2, [[0, 0]]⟩ 3 rfl rfl (by decide)

/-- C2 (evaluation at the failing input): build a 2-item index with ids
`["a", "b"]` and search with `k = 3`. The ANN structure returns the
not-found sentinel id `-1` for the third slot; the conversion loop's
test `idx < len(self.item_ids)` accepts `-1`, and Python negative
indexing resolves `item_ids[-1]` to the LAST id, so the call returns a
third, spurious `"b"` result instead of dropping the sentinel. -/
theorem search_sentinel_maps_to_last_id :
    build ⟨none, [], none⟩ ⟨none, none⟩ ⟨[[0, 0], [3, 4]], some 2⟩ ["a", "b"]
      = (⟨some ⟨2, [[0, 0], [3, 4]]⟩, ["a", "b"], some 2⟩,
         ⟨some (some ⟨2, [[0, 0], [3, 4]]⟩),
          some (some ⟨["a", "b"], some 2⟩)⟩, none)
    ∧ search ⟨some ⟨2, [[0, 0], [3, 4]]⟩, ["a", "b"], some 2⟩ [0, 0] 3
      = .ok [("a", 0, 1), ("b", 25, 1 / 26),
             ("b", fltMax, 1 / (1 + fltMax))] := by
  refine ⟨by decide, ?_⟩
  norm_num [search, faissSearch, sqDist, sortScored, insertScored,
    convertResults, pyGetStr, fltMax]

/-- C3 (evaluation at the failing input): `create_feature_vector` is not
total. The string `"1.2.3"` passes the guard
`value.replace('.', '').isdigit()` (its non-dot characters are all
digits), so line 46 runs `float("1.2.3")`, which raises `ValueError`
that propagates out of the function. -/
theorem create_feature_vector_raises_on_guarded_unparsable_string :
    create_feature_vector [("tempo", PyVal.str ['1', '.', '2', '.', '3'])]
      = .error .valueError := by
  have h : collectValues feature_order
      [("tempo", PyVal.str ['1', '.', '2', '.', '3'])] = .error .valueError := by
    decide
  unfold create_feature_vector
  rw [h]
  rfl

/-- C5: calling `build` on caller-supplied vectors whose count differs
from the id count, or which do not all share one dimension, fails with
the spec's `ValidationError` (a `ValueError`: from the explicit count
check at client.py line 35, or from `np.array` on ragged input) and
returns the prior in-memory state and store exactly unchanged. -/
theorem build_validation_error (s : SimilarityIndex) (store : IndexStore)
    (vs : List (List ℚ)) (ids : List String)
    (h : vs.length ≠ ids.length ∨ uniformDims vs = false) :
    build_from_list s store vs ids = (s, store, some PyError.valueError) := by
  cases vs with
  | nil =>
    rcases h with h | h
    · simp only [build_from_list, np_array, build]
      rw [if_pos (by simpa using h)]
    · simp [uniformDims] at h
  | cons r rest =>
    by_cases hu : rest.all (fun x => x.length = r.length)
    · have hlen : (r :: rest).length ≠ ids.length := by
        rcases h with h | h
        · exact h
        · simp [uniformDims, hu] at h
      simp only [build_from_list, np_array, if_pos hu, build]
      rw [if_pos (by simpa using hlen)]
    · simp [build_from_list, np_array, hu]

/-- Witness for C5 at a concrete input: one vector against zero ids. -/
theorem build_validation_error_witness :
    build_from_list ⟨none, [], none⟩ ⟨none, none⟩ [[0]] []
      = (⟨none, [], none⟩, ⟨none, none⟩, some PyError.valueError) :=
  build_validation_error _ _ _ _ (Or.inl (by decide))

/-- C6: the tempo component before clipping is exactly
`(t - 60) / 140` when the raw tempo `t` is positive and exactly `0`
otherwise (the formula is bypassed); in particular raw tempo `200`
yields pre-clip value `1` and raw tempo `0` yields `0`. -/
theorem tempo_component_preclip (t : ℚ) (rest : List ℚ) :
    tempoStep (t :: rest) = (if 0 < t then (t - 60) / 140 else 0) :: rest
    ∧ tempoStep ((200 : ℚ) :: rest) = (1 : ℚ) :: rest
    ∧ tempoStep ((0 : ℚ) :: rest) = (0 : ℚ) :: rest := by
  refine ⟨rfl, ?_, ?_⟩
  · show (if (0 : ℚ) < 200 then ((200 : ℚ) - 60) / 140 else 0) :: rest = _
    norm_num
  · show (if (0 : ℚ) < 0 then ((0 : ℚ) - 60) / 140 else 0) :: rest = _
    norm_num

/-- C4 counterexample: the invariant `len(item_ids) == ANN size` is NOT
maintained by every accepted operation. Starting from a fresh state,
`build` one 2-dimensional vector under id `"a"` (shown below), then call
`add_items` with TWO 2-dimensional vectors but only ONE id: `add_items`
performs no count check on a built index, the call is accepted without
raising (third component `none`), and it leaves 2 ids against 3 stored
vectors. -/
theorem size_invariant_cex :
    build ⟨none, [], none⟩ ⟨none, none⟩ ⟨[[0, 0]], some 2⟩ ["a"]
      = (⟨some ⟨2, [[0, 0]]⟩, ["a"], some 2⟩,
         ⟨some (some ⟨2, [[0, 0]]⟩), some (some ⟨["a"], some 2⟩)⟩, none)
    ∧ (add_items ⟨some ⟨2, [[0, 0]]⟩, ["a"], some 2⟩
        ⟨some (some ⟨2, [[0, 0]]⟩), some (some ⟨["a"], some 2⟩)⟩
        ⟨[[1, 1], [2, 2]], some 2⟩ ["b"]).2.2 = none
    ∧ (add_items ⟨some ⟨2, [[0, 0]]⟩, ["a"], some 2⟩
        ⟨some (some ⟨2, [[0, 0]]⟩), some (some ⟨["a"], some 2⟩)⟩
        ⟨[[1, 1], [2, 2]], some 2⟩ ["b"]).1.item_ids.length = 2
    ∧ annSize (add_items ⟨some ⟨2, [[0, 0]]⟩, ["a"], some 2⟩
        ⟨some (some ⟨2, [[0, 0]]⟩), some (some ⟨["a"], some 2⟩)⟩
        ⟨[[1, 1], [2, 2]], some 2⟩ ["b"]).1 = 3 := by decide

/-- C4 amended: the invariant `len(item_ids) == ANN structure size`
holds after every successful `build`, after every successful `add_items`
whose vector count equals its id count (a condition `add_items` itself
does not check on a built index — see the counterexample), and after
every load from a store whose artifacts are size-consistent (as every
store written by these operations is); `search` and `save` do not touch
the id list or the ANN structure. -/
theorem size_invariant_amended :
    (∀ s store m ids s2 store2,
        build s store m ids = (s2, store2, none) →
        SizeInv s2 ∧ StoreSizeInv store2)
    ∧ (∀ s store m ids s2 store2,
        SizeInv s → m.rows.length = ids.length →
        add_items s store m ids = (s2, store2, none) →
        SizeInv s2 ∧ StoreSizeInv store2)
    ∧ (∀ store, StoreSizeInv store → SizeInv (load_index store)) := by
  have hbuild : ∀ s store m ids s2 store2,
      build s store m ids = (s2, store2, none) →
      SizeInv s2 ∧ StoreSizeInv store2 := by
    intro s store m ids s2 store2 h
    obtain ⟨d, hc, hlen, rfl, rfl⟩ := build_ok s store m ids s2 store2 h
    constructor
    · intro idx hidx
      simp only [Option.some.injEq] at hidx
      rw [← hidx]
      exact hlen.symm
    · intro idx md h1 h2
      simp only [Option.some.injEq] at h1 h2
      rw [← h1, ← h2]
      exact hlen.symm
  refine ⟨hbuild, ?_, ?_⟩
  · intro s store m ids s2 store2 hinv hlen hadd
    rcases hs : s.index with _ | idx
    · unfold add_items at hadd
      rw [hs] at hadd
      exact hbuild _ _ _ _ _ _ hadd
    · unfold add_items at hadd
      rw [hs] at hadd
      rcases hm : m.cols with _ | c
      · unfold faissAdd at hadd
        rw [hm] at hadd
        simp at hadd
      · unfold faissAdd at hadd
        rw [hm] at hadd
        dsimp only at hadd
        by_cases hcd : c = idx.d
        · rw [if_pos hcd] at hadd
          simp only [save_index, Prod.mk.injEq] at hadd
          obtain ⟨h1, h2, -⟩ := hadd
          have hsz : (s.item_ids ++ ids).length = (idx.vecs ++ m.rows).length := by
            simp only [List.length_append]
            rw [hinv idx hs, hlen]
          constructor
          · intro idx2 hidx2
            rw [← h1] at hidx2 ⊢
            simp only [Option.some.injEq] at hidx2
            rw [← hidx2]
            simpa using hsz
          · intro idx2 md h3 h4
            rw [← h2] at h3 h4
            simp only [Option.some.injEq] at h3 h4
            rw [← h3, ← h4]
            simpa using hsz
        · rw [if_neg hcd] at hadd
          simp at hadd
  · intro store hst idx hidx
    rcases store with ⟨(_ | (_ | idx0)), (_ | (_ | md0))⟩ <;>
      simp [load_index] at hidx
    rcases hidx with ⟨rfl⟩
    simpa [load_index] using hst idx md0 rfl rfl

/-- Witness for the amended C4 at a concrete input: a successful
one-vector `build` establishes the invariant on both the state and the
store. -/
theorem size_invariant_amended_witness :
    SizeInv ⟨some ⟨2, [[0, 0]]⟩, ["a"], some 2⟩
    ∧ StoreSizeInv ⟨some (some ⟨2, [[0, 0]]⟩), some (some ⟨["a"], some 2⟩)⟩ :=
  size_invariant_amended.1 ⟨none, [], none⟩ ⟨none, none⟩ ⟨[[0, 0]], some 2⟩
    ["a"] _ _ (by decide)

/-- C7: save-then-reload round-trips the index. A successful `build`
persists both artifacts; a fresh instance constructed over the same
storage root loads them back and has exactly the same ordered id list
and dimension, and `search` on it with any query vector and any `k`
returns exactly the same results (the model is exact, subsuming
"within floating-point tolerance"). -/
theorem save_reload_roundtrip (s : SimilarityIndex) (store : IndexStore)
    (m : NpMatrix) (ids : List String) (s2 : SimilarityIndex)
    (store2 : IndexStore) (q : List ℚ) (k : ℕ)
    (hb : build s store m ids = (s2, store2, none)) :
    (load_index store2).item_ids = s2.item_ids
    ∧ (load_index store2).dimension = s2.dimension
    ∧ search (load_index store2) q k = search s2 q k := by
  obtain ⟨d, hc, hlen, rfl, rfl⟩ := build_ok s store m ids s2 store2 hb
  exact ⟨rfl, rfl, rfl⟩

/-- Witness for C7 at a concrete input: build one 2-dimensional vector,
reload from the written store, query it. -/
theorem save_reload_roundtrip_witness :
    (load_index ⟨some (some ⟨2, [[0, 0]]⟩), some (some ⟨["a"], some 2⟩)⟩).item_ids
        = (⟨some ⟨2, [[0, 0]]⟩, ["a"], some 2⟩ : SimilarityIndex).item_ids
    ∧ (load_index ⟨some (some ⟨2, [[0, 0]]⟩), some (some ⟨["a"], some 2⟩)⟩).dimension
        = (⟨some ⟨2, [[0, 0]]⟩, ["a"], some 2⟩ : SimilarityIndex).dimension
    ∧ search (load_index ⟨some (some ⟨2, [[0, 0]]⟩), some (some ⟨["a"], some 2⟩)⟩) [0, 0] 1
        = search ⟨some ⟨2, [[0, 0]]⟩, ["a"], some 2⟩ [0, 0] 1 :=
  save_reload_roundtrip ⟨none, [], none⟩ ⟨none, none⟩ ⟨[[0, 0]], some 2⟩
    ["a"] _ _ [0, 0] 1 (by decide)

/-- C8: loading degrades softly. If either persisted artifact is
missing or fails to deserialize, `load` returns the Uninitialized state
(no ANN structure, empty id list, unset dimension) — it never raises,
because `_load_index` checks existence of both files first and catches
every deserialization exception. And it never loads one artifact
without the other: whenever the loaded state carries an ANN structure,
both artifacts were present, deserializable, and both were taken. -/
theorem load_soft_degradation (store : IndexStore) :
    ((store.index_file = none ∨ store.metadata_file = none ∨
        store.index_file = some none ∨ store.metadata_file = some none) →
      load_index store = ⟨none, [], none⟩)
    ∧ (∀ idx, (load_index store).index = some idx →
        store.index_file = some (some idx) ∧
        ∃ md, store.metadata_file = some (some md) ∧
          load_index store = ⟨some idx, md.item_ids, md.dimension⟩) := by
  rcases store with ⟨(_ | (_ | idx0)), (_ | (_ | md0))⟩ <;>
    refine ⟨?_, ?_⟩ <;>
    simp [load_index]

/-- Witness for C8 at a concrete input: the index artifact exists but is
corrupt while the metadata artifact is fine — the load comes back
Uninitialized. -/
theorem load_soft_degradation_witness :
    load_index ⟨some none, some (some ⟨["a"], some 3⟩)⟩ = ⟨none, [], none⟩ :=
  (load_soft_degradation ⟨some none, some (some ⟨["a"], some 3⟩)⟩).1
    (Or.inr (Or.inr (Or.inl rfl)))

/-- Invariant of the `AnalyzeBatch` loop: from counters `c` (completed)
and `e` (errors) it yields one record per remaining path, with
`completed` advancing by one per record, `errors` frozen, `total`
echoed, and the percentage computed from the updated `completed`. -/
theorem analyzeBatchGo_spec (env : String → Except PyError DescriptorSet)
    (total e : ℕ) :
    ∀ (rest : List String) (c : ℕ),
      (AnalyzeBatchGo env total c e rest).length = rest.length ∧
      ∀ i, i < rest.length →
        (AnalyzeBatchGo env total c e rest).getD i ⟨0, 0, 0, "", 0⟩ =
          ⟨total, c + i + 1, e, rest.getD i "",
           ((c + i + 1 : ℕ) : ℚ) / (total : ℚ) * 100⟩ := by
  intro rest
  induction rest with
  | nil =>
    intro c
    exact ⟨rfl, fun i hi => absurd hi (by simp)⟩
  | cons p ps ih =>
    intro c
    refine ⟨by simpa [AnalyzeBatchGo] using (ih (c + 1)).1, ?_⟩
    intro i hi
    cases i with
    | zero =>
      simp [AnalyzeBatchGo]
    | succ j =>
      have hj : j < ps.length := by simpa using Nat.lt_of_succ_lt_succ hi
      have h2 := (ih (c + 1)).2 j hj
      have harith : c + 1 + j + 1 = c + (j + 1) + 1 := by omega
      rw [harith] at h2
      simpa [AnalyzeBatchGo] using h2

/-- C10: for a batch of `n ≥ 1` file paths, `AnalyzeBatch` yields
exactly `n` progress records, one after each path; record `i` (0-based)
has `total = n`, `completed = i + 1` (the number of records yielded so
far), `errors = 0`, `current_file` the `i`-th path, and
`progress_percent = (completed / total) * 100` — regardless of whether
any per-file analysis succeeded, since `AnalyzeTrack` catches its own
exceptions and returns a response instead of raising to the batch
loop. -/
theorem analyze_batch_progress (env : String → Except PyError DescriptorSet)
    (paths : List String) (i : ℕ) (_hne : paths ≠ []) (hi : i < paths.length) :
    (AnalyzeBatch env paths).length = paths.length ∧
    (AnalyzeBatch env paths).getD i ⟨0, 0, 0, "", 0⟩ =
      ⟨paths.length, i + 1, 0, paths.getD i "",
       ((i + 1 : ℕ) : ℚ) / (paths.length : ℚ) * 100⟩ := by
  have h := analyzeBatchGo_spec env paths.length 0 paths 0
  refine ⟨h.1, ?_⟩
  simpa [AnalyzeBatch] using h.2 i hi

/-- Witness for C10 at a concrete input: two paths under an extractor
model that fails on every file; the second record still reports
`completed = 2`, `errors = 0`, `100` percent. -/
theorem analyze_batch_progress_witness :
    (AnalyzeBatch (fun _ => Except.error PyError.valueError) ["x", "y"]).length
        = (["x", "y"] : List String).length
    ∧ (AnalyzeBatch (fun _ => Except.error PyError.valueError) ["x", "y"]).getD 1
        ⟨0, 0, 0, "", 0⟩
        = ⟨(["x", "y"] : List String).length, 1 + 1, 0,
           (["x", "y"] : List String).getD 1 "",
           ((1 + 1 : ℕ) : ℚ) / (((["x", "y"] : List String).length : ℕ) : ℚ) * 100⟩ :=
  analyze_batch_progress (fun _ => Except.error PyError.valueError) ["x", "y"] 1
    (by decide) (by decide)

end Jellysentia
